import Mathlib

/-
Verification of the stocknrs inventory-management application.

The development shallowly embeds the TypeScript source:
  - shared domain types from types/stock.ts (snake_case rows);
  - namespace CtxAttached: the StockContext variant in
    attached_assets/project/src/contexts/StockContext.tsx;
  - namespace CtxLocal: the first StockContext variant in the
    unmapped source document (ADD_MOVEMENT prepends only,
    getStockLevel keyed on max_stock, calculateStats without the
    positive-stock guard);
  - namespace CtxSupabase: the second StockContext variant in the
    unmapped source document (ADD_MOVEMENT applies the clamped stock
    delta, getStockLevel keyed on 2*min_stock, deleteCategory without
    a referential guard);
  - namespace CategoriesPage: handleDeleteCategory from
    client/src/pages/Categories.tsx;
  - namespace DataExport: exportDataToCSV and parseCSVFile from
    client/src/utils/dataExport.ts.

JavaScript idioms are modelled explicitly: numbers as Int, string
truthiness as inequality with the empty string, wall-clock reads
(new Date) as explicit parameters, and the untyped cell values of the
export utility as an inductive JsValue with JS truthiness.
-/

set_option maxRecDepth 20000

namespace Stocknrs

/-- Product row shape from types/stock.ts. The attached_assets variant
additionally carries display fields category_name and supplier_name
joined in by its fetch; they are included here as optional fields so a
single row type serves every variant. -/
structure Product where
  id : String := ""
  name : String := ""
  sku : String := ""
  description : Option String := none
  category_id : String := ""
  supplier_id : String := ""
  current_stock : Int := 0
  min_stock : Int := 0
  max_stock : Option Int := none
  unit_price : Int := 0
  barcode : Option String := none
  location : Option String := none
  created_at : String := ""
  updated_at : String := ""
  category_name : Option String := none
  supplier_name : Option String := none
deriving DecidableEq, Repr

/-- StockMovement row shape from types/stock.ts, plus the optional
display fields the attached_assets variant joins in. -/
structure StockMovement where
  id : String := ""
  product_id : String := ""
  type : String := ""
  quantity : Int := 0
  reason : String := ""
  reference : Option String := none
  notes : Option String := none
  created_at : String := ""
  created_by : Option String := none
  product_name : Option String := none
  product_sku : Option String := none
deriving DecidableEq, Repr

/-- Category row shape from types/stock.ts. -/
structure Category where
  id : String := ""
  name : String := ""
  description : Option String := none
  created_at : Option String := none
deriving DecidableEq, Repr

/-- Supplier row shape from types/stock.ts. -/
structure Supplier where
  id : String := ""
  name : String := ""
  email : String := ""
  phone : String := ""
  address : String := ""
  created_at : Option String := none
deriving DecidableEq, Repr

/-- StockStats shape from types/stock.ts. -/
structure StockStats where
  totalProducts : Nat := 0
  totalValue : Int := 0
  lowStockItems : Nat := 0
  outOfStockItems : Nat := 0
  recentMovements : Nat := 0
deriving DecidableEq, Repr

/-- StockLevel union type from types/stock.ts. -/
inductive StockLevel where
  | high
  | medium
  | low
  | out
deriving DecidableEq, Repr

/-- StockFilter shape from types/stock.ts; every field is optional. -/
structure StockFilter where
  category : Option String := none
  supplier : Option String := none
  stockLevel : Option StockLevel := none
  searchTerm : Option String := none
deriving DecidableEq, Repr

/-- StockState shape shared by the context variants. -/
structure StockState where
  products : List Product := []
  movements : List StockMovement := []
  categories : List Category := []
  suppliers : List Supplier := []
  stats : StockStats := {}
  filter : StockFilter := {}
  loading : Bool := false
deriving DecidableEq, Repr

/-- The StockAction discriminated union. The thirteen constructors are
the thirteen handled case labels of the reducers; unknown models a
runtime dispatch whose type tag is any other string and therefore
falls through to the default branch of the switch. -/
inductive StockAction where
  | SET_PRODUCTS (payload : List Product)
  | SET_CATEGORIES (payload : List Category)
  | SET_SUPPLIERS (payload : List Supplier)
  | SET_MOVEMENTS (payload : List StockMovement)
  | ADD_PRODUCT (payload : Product)
  | UPDATE_PRODUCT (payload : Product)
  | DELETE_PRODUCT (payload : String)
  | ADD_MOVEMENT (payload : StockMovement)
  | ADD_CATEGORY (payload : Category)
  | ADD_SUPPLIER (payload : Supplier)
  | SET_FILTER (payload : StockFilter)
  | SET_LOADING (payload : Bool)
  | CALCULATE_STATS
  | unknown (tag : String)
deriving DecidableEq, Repr

/-- The runtime type tag of an action, as carried in the object field
named type that the reducers switch on. -/
def StockAction.tag : StockAction → String
  | .SET_PRODUCTS _ => "SET_PRODUCTS"
  | .SET_CATEGORIES _ => "SET_CATEGORIES"
  | .SET_SUPPLIERS _ => "SET_SUPPLIERS"
  | .SET_MOVEMENTS _ => "SET_MOVEMENTS"
  | .ADD_PRODUCT _ => "ADD_PRODUCT"
  | .UPDATE_PRODUCT _ => "UPDATE_PRODUCT"
  | .DELETE_PRODUCT _ => "DELETE_PRODUCT"
  | .ADD_MOVEMENT _ => "ADD_MOVEMENT"
  | .ADD_CATEGORY _ => "ADD_CATEGORY"
  | .ADD_SUPPLIER _ => "ADD_SUPPLIER"
  | .SET_FILTER _ => "SET_FILTER"
  | .SET_LOADING _ => "SET_LOADING"
  | .CALCULATE_STATS => "CALCULATE_STATS"
  | .unknown t => t

/-- The thirteen case labels handled by every reducer variant. -/
def handledTags : List String :=
  ["SET_PRODUCTS", "SET_CATEGORIES", "SET_SUPPLIERS", "SET_MOVEMENTS",
   "ADD_PRODUCT", "UPDATE_PRODUCT", "DELETE_PRODUCT", "ADD_MOVEMENT",
   "ADD_CATEGORY", "ADD_SUPPLIER", "SET_FILTER", "SET_LOADING",
   "CALCULATE_STATS"]

/- JavaScript string helpers, written over character lists so that the
kernel can evaluate them on concrete inputs. -/

/-- Helper for jsIncludes: prefix test on character lists. -/
def isPrefixOfL : List Char → List Char → Bool
  | [], _ => true
  | _ :: _, [] => false
  | a :: as, b :: bs => a = b && isPrefixOfL as bs

/-- Helper for jsIncludes: infix test on character lists. -/
def isInfixOfL (sub : List Char) : List Char → Bool
  | [] => isPrefixOfL sub []
  | c :: t => isPrefixOfL sub (c :: t) || isInfixOfL sub t

/-- JS s.includes(sub). -/
def jsIncludes (s sub : String) : Bool :=
  isInfixOfL sub.toList s.toList

/-- JS s.toLowerCase(). -/
def jsToLower (s : String) : String :=
  String.mk (s.toList.map Char.toLower)

end Stocknrs

namespace Stocknrs.CtxAttached

/-- calculateStats of the attached_assets StockContext. The recency
test new Date(m.created_at) against the setDate-derived cutoff reads
the wall clock, so the parse of the timestamp and the computed cutoff
are explicit parameters parseDate and sevenDaysAgo. -/
def calculateStats (products : List Product) (movements : List StockMovement)
    (parseDate : String → Int) (sevenDaysAgo : Int) : StockStats :=
  let totalProducts := products.length
  let totalValue := products.foldl (fun sum product => sum + product.current_stock * product.unit_price) 0
  let lowStockItems := (products.filter (fun p => decide (p.current_stock ≤ p.min_stock) && decide (p.current_stock > 0))).length
  let outOfStockItems := (products.filter (fun p => decide (p.current_stock = 0))).length
  let recentMovements := (movements.filter (fun m => decide (parseDate m.created_at ≥ sevenDaysAgo))).length
  { totalProducts := totalProducts, totalValue := totalValue,
    lowStockItems := lowStockItems, outOfStockItems := outOfStockItems,
    recentMovements := recentMovements }

/-- stockReducer of the attached_assets StockContext. ADD_MOVEMENT
only prepends the movement; product rows are untouched. The stats
parameters are threaded through for the CALCULATE_STATS branch. -/
def stockReducer (parseDate : String → Int) (sevenDaysAgo : Int)
    (state : StockState) (action : StockAction) : StockState :=
  match action with
  | .SET_PRODUCTS payload => { state with products := payload }
  | .SET_MOVEMENTS payload => { state with movements := payload }
  | .SET_CATEGORIES payload => { state with categories := payload }
  | .SET_SUPPLIERS payload => { state with suppliers := payload }
  | .ADD_PRODUCT payload => { state with products := state.products ++ [payload] }
  | .UPDATE_PRODUCT payload =>
      { state with products := state.products.map (fun p => if p.id = payload.id then payload else p) }
  | .DELETE_PRODUCT payload =>
      { state with products := state.products.filter (fun p => decide (p.id ≠ payload)) }
  | .ADD_MOVEMENT payload => { state with movements := payload :: state.movements }
  | .ADD_CATEGORY payload => { state with categories := state.categories ++ [payload] }
  | .ADD_SUPPLIER payload => { state with suppliers := state.suppliers ++ [payload] }
  | .SET_FILTER payload => { state with filter := payload }
  | .SET_LOADING payload => { state with loading := payload }
  | .CALCULATE_STATS =>
      { state with stats := calculateStats state.products state.movements parseDate sevenDaysAgo }
  | .unknown _ => state

/-- initialState of the attached_assets StockContext (loading true). -/
def initialState : StockState :=
  { products := [], movements := [], categories := [], suppliers := [],
    stats := { totalProducts := 0, totalValue := 0, lowStockItems := 0,
               outOfStockItems := 0, recentMovements := 0 },
    filter := {}, loading := true }

/-- getStockLevel of the attached_assets StockContext. -/
def getStockLevel (product : Product) : StockLevel :=
  if product.current_stock = 0 then .out
  else if product.current_stock ≤ product.min_stock then .low
  else if product.current_stock ≤ product.min_stock * 2 then .medium
  else .high

/-- getFilteredProducts of the attached_assets StockContext: the four
optional predicates are applied as successive filters. A filter string
is active exactly when it is present and truthy (non-empty); the
optional-chaining read of description yields false when absent. -/
def getFilteredProducts (state : StockState) : List Product :=
  let filtered := state.products
  let filtered :=
    match state.filter.searchTerm with
    | some q =>
        if q ≠ "" then
          let searchLower := jsToLower q
          filtered.filter (fun product =>
            jsIncludes (jsToLower product.name) searchLower ||
            jsIncludes (jsToLower product.sku) searchLower ||
            (match product.description with
             | some d => jsIncludes (jsToLower d) searchLower
             | none => false))
        else filtered
    | none => filtered
  let filtered :=
    match state.filter.category with
    | some c =>
        if c ≠ "" then filtered.filter (fun product => decide (product.category_id = c))
        else filtered
    | none => filtered
  let filtered :=
    match state.filter.supplier with
    | some s =>
        if s ≠ "" then filtered.filter (fun product => decide (product.supplier_id = s))
        else filtered
    | none => filtered
  let filtered :=
    match state.filter.stockLevel with
    | some lvl => filtered.filter (fun product => decide (getStockLevel product = lvl))
    | none => filtered
  filtered

end Stocknrs.CtxAttached

namespace Stocknrs.CtxLocal

/-- calculateStats of the first (local) StockContext variant in the
unmapped document: identical to the attached_assets one except that
the low-stock filter has no positive-stock condition, so a product
with zero stock is counted both out-of-stock and low-stock. -/
def calculateStats (products : List Product) (movements : List StockMovement)
    (parseDate : String → Int) (sevenDaysAgo : Int) : StockStats :=
  let totalProducts := products.length
  let totalValue := products.foldl (fun sum p => sum + p.current_stock * p.unit_price) 0
  let lowStockItems := (products.filter (fun p => decide (p.current_stock ≤ p.min_stock))).length
  let outOfStockItems := (products.filter (fun p => decide (p.current_stock = 0))).length
  let recentMovements := (movements.filter (fun m => decide (parseDate m.created_at ≥ sevenDaysAgo))).length
  { totalProducts := totalProducts, totalValue := totalValue,
    lowStockItems := lowStockItems, outOfStockItems := outOfStockItems,
    recentMovements := recentMovements }

/-- stockReducer of the local variant: same thirteen cases as the
attached_assets reducer (ADD_MOVEMENT prepends only), with this
variant resolving CALCULATE_STATS through its own calculateStats. -/
def stockReducer (parseDate : String → Int) (sevenDaysAgo : Int)
    (state : StockState) (action : StockAction) : StockState :=
  match action with
  | .SET_PRODUCTS payload => { state with products := payload }
  | .SET_CATEGORIES payload => { state with categories := payload }
  | .SET_SUPPLIERS payload => { state with suppliers := payload }
  | .SET_MOVEMENTS payload => { state with movements := payload }
  | .ADD_PRODUCT payload => { state with products := state.products ++ [payload] }
  | .UPDATE_PRODUCT payload =>
      { state with products := state.products.map (fun p => if p.id = payload.id then payload else p) }
  | .DELETE_PRODUCT payload =>
      { state with products := state.products.filter (fun p => decide (p.id ≠ payload)) }
  | .ADD_MOVEMENT payload => { state with movements := payload :: state.movements }
  | .ADD_CATEGORY payload => { state with categories := state.categories ++ [payload] }
  | .ADD_SUPPLIER payload => { state with suppliers := state.suppliers ++ [payload] }
  | .SET_FILTER payload => { state with filter := payload }
  | .SET_LOADING payload => { state with loading := payload }
  | .CALCULATE_STATS =>
      { state with stats := calculateStats state.products state.movements parseDate sevenDaysAgo }
  | .unknown _ => state

/-- initialState of the local variant (loading false). -/
def initialState : StockState :=
  { products := [], movements := [], categories := [], suppliers := [],
    stats := { totalProducts := 0, totalValue := 0, lowStockItems := 0,
               outOfStockItems := 0, recentMovements := 0 },
    filter := {}, loading := false }

/-- getStockLevel of the local variant: high only when max_stock is
present, truthy (non-zero) and reached; otherwise medium. -/
def getStockLevel (product : Product) : StockLevel :=
  if product.current_stock = 0 then .out
  else if product.current_stock ≤ product.min_stock then .low
  else
    match product.max_stock with
    | some mx => if mx ≠ 0 && product.current_stock ≥ mx then .high else .medium
    | none => .medium

end Stocknrs.CtxLocal

namespace Stocknrs.CtxSupabase

/-- StockStats as computed by the supabase variant. Its calculateStats
reads the camelCase fields currentStock, minStock and unitPrice, which
do not exist on the snake_case rows the file imports, so under JS
semantics every per-product comparison is false and the value sum is
NaN as soon as one product exists; totalValue is therefore an
Option Int with none standing for NaN. -/
structure StockStats where
  totalProducts : Nat := 0
  totalValue : Option Int := some 0
  lowStockItems : Nat := 0
  outOfStockItems : Nat := 0
  recentMovements : Nat := 0
deriving DecidableEq, Repr

/-- StockState of the supabase variant; identical shape, but carrying
this variant's stats. -/
structure StockState where
  products : List Product := []
  movements : List StockMovement := []
  categories : List Category := []
  suppliers : List Supplier := []
  stats : StockStats := {}
  filter : StockFilter := {}
  loading : Bool := false
deriving DecidableEq, Repr

/-- calculateStats of the supabase variant, embedded at JS runtime
semantics: p.currentStock and friends are undefined on the snake_case
rows, so the low-stock and out-of-stock filters accept nothing and the
reduce over currentStock times unitPrice is NaN for any non-empty
product list (none). The recency counter reads the real created_at
field and behaves as in the other variants. -/
def calculateStats (products : List Product) (movements : List StockMovement)
    (parseDate : String → Int) (sevenDaysAgo : Int) : StockStats :=
  let totalProducts := products.length
  let totalValue : Option Int := if products.isEmpty then some 0 else none
  let lowStockItems := 0
  let outOfStockItems := 0
  let recentMovements := (movements.filter (fun m => decide (parseDate m.created_at ≥ sevenDaysAgo))).length
  { totalProducts := totalProducts, totalValue := totalValue,
    lowStockItems := lowStockItems, outOfStockItems := outOfStockItems,
    recentMovements := recentMovements }

/-- stockReducer of the supabase variant. ADD_MOVEMENT both prepends
the movement and rewrites the matching product row: stock plus
quantity for type in, otherwise Math.max(0, stock minus quantity),
stamping updated_at with new Date().toISOString(), which is passed in
as the parameter now. -/
def stockReducer (now : String) (parseDate : String → Int) (sevenDaysAgo : Int)
    (state : StockState) (action : StockAction) : StockState :=
  match action with
  | .SET_PRODUCTS payload => { state with products := payload }
  | .SET_CATEGORIES payload => { state with categories := payload }
  | .SET_SUPPLIERS payload => { state with suppliers := payload }
  | .SET_MOVEMENTS payload => { state with movements := payload }
  | .ADD_PRODUCT payload => { state with products := state.products ++ [payload] }
  | .UPDATE_PRODUCT payload =>
      { state with products := state.products.map (fun p => if p.id = payload.id then payload else p) }
  | .DELETE_PRODUCT payload =>
      { state with products := state.products.filter (fun p => decide (p.id ≠ payload)) }
  | .ADD_MOVEMENT payload =>
      let updatedProducts := state.products.map (fun product =>
        if product.id = payload.product_id then
          let newStock :=
            if payload.type = "in" then product.current_stock + payload.quantity
            else max 0 (product.current_stock - payload.quantity)
          { product with current_stock := newStock, updated_at := now }
        else product)
      { state with products := updatedProducts, movements := payload :: state.movements }
  | .ADD_CATEGORY payload => { state with categories := state.categories ++ [payload] }
  | .ADD_SUPPLIER payload => { state with suppliers := state.suppliers ++ [payload] }
  | .SET_FILTER payload => { state with filter := payload }
  | .SET_LOADING payload => { state with loading := payload }
  | .CALCULATE_STATS =>
      { state with stats := calculateStats state.products state.movements parseDate sevenDaysAgo }
  | .unknown _ => state

/-- getStockLevel of the supabase variant (same formula as the
attached_assets one). -/
def getStockLevel (product : Product) : StockLevel :=
  if product.current_stock = 0 then .out
  else if product.current_stock ≤ product.min_stock then .low
  else if product.current_stock ≤ product.min_stock * 2 then .medium
  else .high

/-- getFilteredProducts of the supabase variant: successive optional
filters, identical in structure to the attached_assets one. -/
def getFilteredProducts (state : StockState) : List Product :=
  let filtered := state.products
  let filtered :=
    match state.filter.searchTerm with
    | some q =>
        if q ≠ "" then
          let searchLower := jsToLower q
          filtered.filter (fun product =>
            jsIncludes (jsToLower product.name) searchLower ||
            jsIncludes (jsToLower product.sku) searchLower ||
            (match product.description with
             | some d => jsIncludes (jsToLower d) searchLower
             | none => false))
        else filtered
    | none => filtered
  let filtered :=
    match state.filter.category with
    | some c =>
        if c ≠ "" then filtered.filter (fun product => decide (product.category_id = c))
        else filtered
    | none => filtered
  let filtered :=
    match state.filter.supplier with
    | some s =>
        if s ≠ "" then filtered.filter (fun product => decide (product.supplier_id = s))
        else filtered
    | none => filtered
  let filtered :=
    match state.filter.stockLevel with
    | some lvl => filtered.filter (fun product => decide (getStockLevel product = lvl))
    | none => filtered
  filtered

/-- deleteCategory of the supabase variant provider: it issues the
external delete unconditionally (no referential check of any kind) and
on success dispatches SET_CATEGORIES with the id filtered out; on
failure it only logs and the list is unchanged. The external call
outcome is the parameter ok; the returned Bool records that the delete
call was issued. -/
def deleteCategory (categories : List Category) (ok : Bool) (id : String) :
    Bool × List Category :=
  (true, if ok then categories.filter (fun c => decide (c.id ≠ id)) else categories)

end Stocknrs.CtxSupabase

namespace Stocknrs.CategoriesPage

/-- The per-category product count the Categories page builds in
fetchCategories: the number of fetched products whose category_id is
the given id (absent keys read back as 0 through the or-default). -/
def productCounts (products : List Product) (categoryId : String) : Nat :=
  (products.filter (fun p => decide (p.category_id = categoryId))).length

/-- Outcome of handleDeleteCategory: whether the external delete call
was issued, the resulting category list, and the blocking product
count reported to the user on refusal. -/
structure DeleteOutcome where
  deleteIssued : Bool
  categories : List Category
  blockedCount : Option Nat
deriving DecidableEq, Repr

/-- handleDeleteCategory from the Categories page: if the category has
a positive product count the operation returns before any external
call, reporting the count; otherwise the supabase delete is issued and
on success the list is refetched (modelled as the store list with the
category removed); on failure the list is unchanged. The external call
outcome is the parameter ok. -/
def handleDeleteCategory (categories : List Category) (products : List Product)
    (ok : Bool) (categoryId : String) : DeleteOutcome :=
  let productCount := productCounts products categoryId
  if productCount > 0 then
    { deleteIssued := false, categories := categories, blockedCount := some productCount }
  else if ok then
    { deleteIssued := true,
      categories := categories.filter (fun c => decide (c.id ≠ categoryId)),
      blockedCount := none }
  else
    { deleteIssued := true, categories := categories, blockedCount := none }

end Stocknrs.CategoriesPage

namespace Stocknrs.DataExport

/-- The dynamic JavaScript values an export row cell can hold. -/
inductive JsValue where
  | str (s : String)
  | num (n : Int)
  | bool (b : Bool)
  | jsNull
  | undefined
deriving DecidableEq, Repr

/-- JS truthiness of a cell value: 0, false, null, undefined and the
empty string are falsy, everything else truthy. -/
def truthy : JsValue → Bool
  | .str s => decide (s ≠ "")
  | .num n => decide (n ≠ 0)
  | .bool b => b
  | .jsNull => false
  | .undefined => false

/-- One character of the JSON.stringify string escape. -/
def jsonEscapeChar (c : Char) : String :=
  if c = '"' then "\\\""
  else if c = '\\' then "\\\\"
  else if c = Char.ofNat 10 then "\\n"
  else if c = Char.ofNat 13 then "\\r"
  else if c = Char.ofNat 9 then "\\t"
  else String.mk [c]

/-- JSON.stringify of a string value. -/
def jsonStringifyString (s : String) : String :=
  "\"" ++ String.join (s.toList.map jsonEscapeChar) ++ "\""

/-- JSON.stringify of the cell values that can reach it here. The
undefined case never arrives in a cell because the or-default in
csvCell replaces every falsy value with the empty string first. -/
def jsonStringifyValue : JsValue → String
  | .str s => jsonStringifyString s
  | .num n => toString n
  | .bool true => "true"
  | .bool false => "false"
  | .jsNull => "null"
  | .undefined => ""

/-- One CSV cell of exportDataToCSV: JSON.stringify applied to the
value with falsy values replaced by the empty string first. -/
def csvCell (v : JsValue) : String :=
  jsonStringifyValue (if truthy v then v else .str "")

/-- A row is a JS object: keys in insertion order with dynamic
values. -/
abbrev Row := List (String × JsValue)

/-- JS property read row[header]: the stored value, or undefined when
the key is absent. -/
def jsGet (row : Row) (key : String) : JsValue :=
  match row.find? (fun kv => decide (kv.1 = key)) with
  | some kv => kv.2
  | none => .undefined

/-- Splitting a character list at a separator character, mirroring the
JS String.split semantics on single-character separators (a trailing
separator yields a trailing empty piece, the empty input yields one
empty piece). -/
def splitCharList (sep : Char) (s : List Char) : List (List Char) :=
  s.foldr
    (fun a acc =>
      if a = sep then [] :: acc
      else (a :: acc.headD []) :: acc.tail)
    [[]]

/-- JS s.split(sep) for a single-character separator. -/
def jsSplit (s : String) (sep : Char) : List String :=
  (splitCharList sep s.toList).map String.mk

/-- Concatenation with separator, as Array.prototype.join. -/
def joinWith (sep : String) : List String → String
  | [] => ""
  | [x] => x
  | x :: xs => x ++ sep ++ joinWith sep xs

/-- exportDataToCSV: nothing is produced for an empty list; otherwise
the header row is the key list of the first record and each data row
maps those headers through csvCell. The file download plumbing is
outside the model; the produced CSV text is returned. -/
def exportDataToCSV (data : List Row) : Option String :=
  match data with
  | [] => none
  | r0 :: _ =>
      let headers := r0.map (fun kv => kv.1)
      some (joinWith "\n"
        (joinWith "," headers ::
         data.map (fun row => joinWith "," (headers.map (fun h => csvCell (jsGet row h))))))

/-- The naive quote stripping of parseCSVFile: every double-quote
character is removed. -/
def stripQuotes (s : String) : String :=
  String.mk (s.toList.filter (fun c => decide (c ≠ '"')))

/-- JS object insertion obj[k] = v: overwrite in place when the key
exists, append otherwise. -/
def objInsert (obj : List (String × String)) (k v : String) : List (String × String) :=
  if obj.any (fun kv => decide (kv.1 = k)) then
    obj.map (fun kv => if kv.1 = k then (k, v) else kv)
  else obj ++ [(k, v)]

/-- parseCSVFile: split the text on newlines, take the quote-stripped
first line as headers, build one object per remaining line assigning
values[index] (or the empty string past the end) to each header, and
drop every object all of whose values are empty. -/
def parseCSVFile (csv : String) : List (List (String × String)) :=
  let lines := jsSplit csv '\n'
  let headers := (jsSplit (lines.headD "") ',').map stripQuotes
  let data := (lines.drop 1).map (fun line =>
    let values := (jsSplit line ',').map stripQuotes
    headers.enum.foldl (fun obj hi => objInsert obj hi.2 (values.getD hi.1 "")) [])
  data.filter (fun obj => obj.any (fun kv => decide (kv.2 ≠ "")))

end Stocknrs.DataExport

namespace Stocknrs

/-- The derived stock-level bucket exactly as the specification words
it: out if the stock is 0, low if it is positive and at most
min_stock, medium if it is above min_stock and at most twice
min_stock, and high otherwise. Stated from the spec for comparison
with the getStockLevel implementations. -/
def stockLevelSpec (current_stock min_stock : Int) : StockLevel :=
  if current_stock = 0 then .out
  else if 0 < current_stock ∧ current_stock ≤ min_stock then .low
  else if min_stock < current_stock ∧ current_stock ≤ 2 * min_stock then .medium
  else .high

end Stocknrs

namespace Stocknrs

/-- A product with positive stock used as a concrete input. -/
def sampleProduct : Product :=
  { id := "p1", name := "Widget", sku := "W1", category_id := "c1",
    supplier_id := "s1", current_stock := 5, min_stock := 2, unit_price := 10 }

/-- An outgoing movement of quantity 3 against sampleProduct. -/
def sampleOutMovement : StockMovement :=
  { id := "m1", product_id := "p1", type := "out", quantity := 3,
    reason := "issue", created_at := "2026-01-01" }

/-- A state of the shared shape holding sampleProduct. -/
def sampleState : StockState := { products := [sampleProduct] }

/-- A state of the supabase-variant shape holding sampleProduct. -/
def sampleStateSb : CtxSupabase.StockState := { products := [sampleProduct] }

/-- A product with zero stock and a positive minimum. -/
def zeroStockProduct : Product :=
  { id := "p0", name := "Empty", sku := "E0", current_stock := 0, min_stock := 5 }

/-- A product far above twice its minimum with no max_stock set. -/
def mediumFallbackProduct : Product :=
  { id := "p2", name := "Pile", sku := "P2", current_stock := 100, min_stock := 1 }

/-- The category referenced by sampleProduct. -/
def sampleCategoryC1 : Category := { id := "c1", name := "Tools" }

/-- A category no product references. -/
def sampleCategoryC2 : Category := { id := "c2", name := "Parts" }

/-- A low-stock product in category c1. -/
def catLowProduct : Product :=
  { id := "pl", name := "LowOne", sku := "L1", category_id := "c1",
    current_stock := 1, min_stock := 2 }

/-- A high-stock product in category c1. -/
def catHighProduct : Product :=
  { id := "ph", name := "HighOne", sku := "H1", category_id := "c1",
    current_stock := 100, min_stock := 1 }

/-- A low-stock product in category c2. -/
def otherCatLowProduct : Product :=
  { id := "po", name := "OtherLow", sku := "O1", category_id := "c2",
    current_stock := 1, min_stock := 2 }

/-- An export row whose name field contains a comma. -/
def csvSampleRow : DataExport.Row :=
  [("name", DataExport.JsValue.str "Widget, Large")]

end Stocknrs

open Stocknrs

/-- C1 (counterexample): the claim quantifies over the reducer as such,
but the attached_assets stockReducer handles ADD_MOVEMENT by
prepending only. On a state holding a product with stock 5 and an
outgoing movement of quantity 3 against it, the movement is prepended
while the product keeps stock 5, not the max(0, 5-3) = 2 the claim
requires. -/
theorem c1_add_movement_attached_cex :
    (CtxAttached.stockReducer (fun _ => 0) 0 sampleState
        (.ADD_MOVEMENT sampleOutMovement)).movements = [sampleOutMovement] ∧
    ((CtxAttached.stockReducer (fun _ => 0) 0 sampleState
        (.ADD_MOVEMENT sampleOutMovement)).products.map Product.current_stock) = [5] ∧
    max 0 ((5 : Int) - 3) = 2 ∧ (5 : Int) ≠ 2 := by decide

/-- C1 (amended): the supabase-variant reducer gives ADD_MOVEMENT the
claimed dual effect — it prepends the movement and, in the same
transition, sets the matching product to max(0, s-q) for direction
out (hence never negative) and to s+q for direction in, leaves every
other product in place and preserves the product count — while the
attached_assets reducer only prepends the movement and returns every
product row unchanged (its stock updates are delegated to database
triggers). -/
theorem c1_add_movement_dual_effect (now : String) (parseDate : String → Int)
    (sevenDaysAgo : Int) (st : CtxSupabase.StockState) (stA : StockState)
    (m : StockMovement) (p : Product) (hp : p ∈ st.products) :
    (CtxSupabase.stockReducer now parseDate sevenDaysAgo st (.ADD_MOVEMENT m)).movements
        = m :: st.movements ∧
    (m.type = "out" → p.id = m.product_id →
        { p with current_stock := max 0 (p.current_stock - m.quantity), updated_at := now }
          ∈ (CtxSupabase.stockReducer now parseDate sevenDaysAgo st (.ADD_MOVEMENT m)).products ∧
        (0 : Int) ≤ max 0 (p.current_stock - m.quantity)) ∧
    (m.type = "in" → p.id = m.product_id →
        { p with current_stock := p.current_stock + m.quantity, updated_at := now }
          ∈ (CtxSupabase.stockReducer now parseDate sevenDaysAgo st (.ADD_MOVEMENT m)).products) ∧
    (p.id ≠ m.product_id →
        p ∈ (CtxSupabase.stockReducer now parseDate sevenDaysAgo st (.ADD_MOVEMENT m)).products) ∧
    (CtxSupabase.stockReducer now parseDate sevenDaysAgo st (.ADD_MOVEMENT m)).products.length
        = st.products.length ∧
    CtxAttached.stockReducer parseDate sevenDaysAgo stA (.ADD_MOVEMENT m)
        = { stA with movements := m :: stA.movements } := by
  refine ⟨rfl, ?_, ?_, ?_, by simp [CtxSupabase.stockReducer], rfl⟩
  · intro hout hid
    refine ⟨?_, le_max_left 0 _⟩
    have hmem := List.mem_map_of_mem (f := fun product =>
      if product.id = m.product_id then
        { product with
            current_stock :=
              if m.type = "in" then product.current_stock + m.quantity
              else max 0 (product.current_stock - m.quantity),
            updated_at := now }
      else product) hp
    simpa [CtxSupabase.stockReducer, hid, hout] using hmem
  · intro hin hid
    have hmem := List.mem_map_of_mem (f := fun product =>
      if product.id = m.product_id then
        { product with
            current_stock :=
              if m.type = "in" then product.current_stock + m.quantity
              else max 0 (product.current_stock - m.quantity),
            updated_at := now }
      else product) hp
    simpa [CtxSupabase.stockReducer, hid, hin] using hmem
  · intro hne
    have hmem := List.mem_map_of_mem (f := fun product =>
      if product.id = m.product_id then
        { product with
            current_stock :=
              if m.type = "in" then product.current_stock + m.quantity
              else max 0 (product.current_stock - m.quantity),
            updated_at := now }
      else product) hp
    simpa [CtxSupabase.stockReducer, hne] using hmem

/-- C1 (witness): the amended theorem applied to the sample state with
one product of stock 5 and an outgoing movement of quantity 3. -/
theorem c1_add_movement_dual_effect_witness :
    sampleProduct ∈ sampleStateSb.products ∧
    ((CtxSupabase.stockReducer "2026-01-02" (fun _ => 0) 0 sampleStateSb
        (.ADD_MOVEMENT sampleOutMovement)).movements
        = sampleOutMovement :: sampleStateSb.movements ∧
    (sampleOutMovement.type = "out" → sampleProduct.id = sampleOutMovement.product_id →
        { sampleProduct with
            current_stock := max 0 (sampleProduct.current_stock - sampleOutMovement.quantity),
            updated_at := "2026-01-02" }
          ∈ (CtxSupabase.stockReducer "2026-01-02" (fun _ => 0) 0 sampleStateSb
              (.ADD_MOVEMENT sampleOutMovement)).products ∧
        (0 : Int) ≤ max 0 (sampleProduct.current_stock - sampleOutMovement.quantity)) ∧
    (sampleOutMovement.type = "in" → sampleProduct.id = sampleOutMovement.product_id →
        { sampleProduct with
            current_stock := sampleProduct.current_stock + sampleOutMovement.quantity,
            updated_at := "2026-01-02" }
          ∈ (CtxSupabase.stockReducer "2026-01-02" (fun _ => 0) 0 sampleStateSb
              (.ADD_MOVEMENT sampleOutMovement)).products) ∧
    (sampleProduct.id ≠ sampleOutMovement.product_id →
        sampleProduct ∈ (CtxSupabase.stockReducer "2026-01-02" (fun _ => 0) 0 sampleStateSb
            (.ADD_MOVEMENT sampleOutMovement)).products) ∧
    (CtxSupabase.stockReducer "2026-01-02" (fun _ => 0) 0 sampleStateSb
        (.ADD_MOVEMENT sampleOutMovement)).products.length
        = sampleStateSb.products.length ∧
    CtxAttached.stockReducer (fun _ => 0) 0 sampleState (.ADD_MOVEMENT sampleOutMovement)
        = { sampleState with movements := sampleOutMovement :: sampleState.movements }) :=
  ⟨by decide,
   c1_add_movement_dual_effect "2026-01-02" (fun _ => 0) 0 sampleStateSb sampleState
     sampleOutMovement sampleProduct (by decide)⟩

/-- C2 (counterexample): the first part_003 variant of calculateStats
has no positive-stock condition on its low-stock filter, so a product
with stock 0 (and minimum 5) is counted low-stock, while the claim
requires a count of 0 for that list. -/
theorem c2_low_stock_zero_counted_cex :
    (CtxLocal.calculateStats [zeroStockProduct] [] (fun _ => 0) 0).lowStockItems = 1 ∧
    ([zeroStockProduct].filter
        (fun p => decide (0 < p.current_stock ∧ p.current_stock ≤ p.min_stock))).length = 0 ∧
    (1 : Nat) ≠ 0 := by decide

/-- C2 (amended): the attached_assets calculateStats counts
lowStockItems exactly as the claim states, products with
0 < current_stock ≤ min_stock, and counts a product as out-of-stock
exactly when its stock is 0; the first part_003 variant omits the
positive-stock condition and counts every product with
current_stock ≤ min_stock, an out-of-stock product included, as
low-stock. -/
theorem c2_low_stock_threshold (products : List Product)
    (movements : List StockMovement) (parseDate : String → Int) (sevenDaysAgo : Int) :
    (CtxAttached.calculateStats products movements parseDate sevenDaysAgo).lowStockItems
      = (products.filter (fun p => decide (0 < p.current_stock ∧ p.current_stock ≤ p.min_stock))).length ∧
    (CtxAttached.calculateStats products movements parseDate sevenDaysAgo).outOfStockItems
      = (products.filter (fun p => decide (p.current_stock = 0))).length ∧
    (CtxLocal.calculateStats products movements parseDate sevenDaysAgo).lowStockItems
      = (products.filter (fun p => decide (p.current_stock ≤ p.min_stock))).length := by
  refine ⟨?_, rfl, rfl⟩
  apply congrArg List.length
  apply List.filter_congr
  intro p _
  by_cases h1 : p.current_stock ≤ p.min_stock <;> by_cases h2 : p.current_stock > 0 <;>
    simp [h1, h2]

/-- C3 (counterexample): the first part_003 variant of getStockLevel
returns medium for a product with stock 100 and minimum 1 (max_stock
unset), where the claim requires high because 100 exceeds twice the
minimum. -/
theorem c3_stock_level_bucket_cex :
    CtxLocal.getStockLevel mediumFallbackProduct = .medium ∧
    stockLevelSpec mediumFallbackProduct.current_stock mediumFallbackProduct.min_stock = .high ∧
    StockLevel.medium ≠ StockLevel.high := by decide

/-- C3 (amended): for products with non-negative stock the
attached_assets and supabase-variant getStockLevel both realise
exactly the claimed bucketing (out at 0, low up to min_stock, medium
up to twice min_stock, high above); the first part_003 variant
instead falls back to medium above min_stock whenever max_stock is
unset, however large the stock. -/
theorem c3_stock_level_bucket (p : Product) (h : 0 ≤ p.current_stock) :
    CtxAttached.getStockLevel p = stockLevelSpec p.current_stock p.min_stock ∧
    CtxSupabase.getStockLevel p = stockLevelSpec p.current_stock p.min_stock ∧
    (0 ≤ p.min_stock → p.max_stock = none → p.min_stock < p.current_stock →
      CtxLocal.getStockLevel p = .medium) := by
  refine ⟨?_, ?_, ?_⟩
  · unfold CtxAttached.getStockLevel stockLevelSpec
    split_ifs <;> first | rfl | omega
  · unfold CtxSupabase.getStockLevel stockLevelSpec
    split_ifs <;> first | rfl | omega
  · intro hmin hmx hlt
    unfold CtxLocal.getStockLevel
    rw [hmx]
    split_ifs <;> first | rfl | omega

/-- C3 (witness): the amended theorem applied to the sample product
with stock 5 and minimum 2. -/
theorem c3_stock_level_bucket_witness :
    (0 : Int) ≤ sampleProduct.current_stock ∧
    (CtxAttached.getStockLevel sampleProduct
        = stockLevelSpec sampleProduct.current_stock sampleProduct.min_stock ∧
     CtxSupabase.getStockLevel sampleProduct
        = stockLevelSpec sampleProduct.current_stock sampleProduct.min_stock ∧
     (0 ≤ sampleProduct.min_stock → sampleProduct.max_stock = none →
        sampleProduct.min_stock < sampleProduct.current_stock →
        CtxLocal.getStockLevel sampleProduct = .medium)) :=
  ⟨by decide, c3_stock_level_bucket sampleProduct (by decide)⟩

/-- C4 (counterexample): the supabase-variant deleteCategory has no
referential guard: with one product referencing category c1 (count 1,
which is positive), the operation still issues the external delete and
removes c1 from the category list, against the claimed refusal with an
unchanged list. -/
theorem c4_delete_category_guard_cex :
    CategoriesPage.productCounts [sampleProduct] "c1" = 1 ∧
    (CtxSupabase.deleteCategory [sampleCategoryC1] true "c1").1 = true ∧
    (CtxSupabase.deleteCategory [sampleCategoryC1] true "c1").2 = [] ∧
    ([] : List Category) ≠ [sampleCategoryC1] := by decide

/-- C4 (amended): the Categories page handler behaves as the claim
states — a positive referencing-product count N makes it return,
before any external call, with the list unchanged and N reported,
while N = 0 lets the delete proceed and the refreshed list no longer
contains the category (and keeps every other category) — whereas the
supabase-variant deleteCategory issues the external delete
unconditionally, with no referential check. -/
theorem c4_delete_category_guard (categories : List Category) (products : List Product)
    (ok : Bool) (cid : String) (N : Nat)
    (hN : CategoriesPage.productCounts products cid = N) :
    (0 < N → CategoriesPage.handleDeleteCategory categories products ok cid
        = { deleteIssued := false, categories := categories, blockedCount := some N }) ∧
    (N = 0 → ok = true →
        (CategoriesPage.handleDeleteCategory categories products ok cid).deleteIssued = true ∧
        (∀ c ∈ (CategoriesPage.handleDeleteCategory categories products ok cid).categories,
            c.id ≠ cid) ∧
        (∀ c ∈ categories, c.id ≠ cid →
            c ∈ (CategoriesPage.handleDeleteCategory categories products ok cid).categories)) ∧
    (CtxSupabase.deleteCategory categories ok cid).1 = true := by
  refine ⟨?_, ?_, rfl⟩
  · intro h
    simp only [CategoriesPage.handleDeleteCategory, hN]
    rw [if_pos h]
  · intro h0 hok
    simp only [CategoriesPage.handleDeleteCategory, hN, h0, hok]
    refine ⟨by simp, ?_, ?_⟩
    · intro c hc
      simp at hc
      exact hc.2
    · intro c hc hne
      simp [hc, hne]

/-- C4 (witness): the amended theorem applied to a two-category list
where c2 has no referencing product. -/
theorem c4_delete_category_guard_witness :
    CategoriesPage.productCounts [] "c2" = 0 ∧
    ((0 < 0 → CategoriesPage.handleDeleteCategory [sampleCategoryC1, sampleCategoryC2] [] true "c2"
        = { deleteIssued := false, categories := [sampleCategoryC1, sampleCategoryC2],
            blockedCount := some 0 }) ∧
     (0 = 0 → true = true →
        (CategoriesPage.handleDeleteCategory [sampleCategoryC1, sampleCategoryC2] [] true "c2").deleteIssued = true ∧
        (∀ c ∈ (CategoriesPage.handleDeleteCategory [sampleCategoryC1, sampleCategoryC2] [] true "c2").categories,
            c.id ≠ "c2") ∧
        (∀ c ∈ [sampleCategoryC1, sampleCategoryC2], c.id ≠ "c2" →
            c ∈ (CategoriesPage.handleDeleteCategory [sampleCategoryC1, sampleCategoryC2] [] true "c2").categories)) ∧
     (CtxSupabase.deleteCategory [sampleCategoryC1, sampleCategoryC2] true "c2").1 = true) :=
  ⟨by decide,
   c4_delete_category_guard [sampleCategoryC1, sampleCategoryC2] [] true "c2" 0 (by decide)⟩

/-- C5: the CSV round trip is lossy for a comma-containing field. The
record with name Widget, Large (which contains a comma) exports to the
two lines name and quoted Widget, Large; re-importing that text splits
the value at the comma, strips the quotes, and keeps only the first
piece, so the parsed record differs from the original. -/
theorem c5_csv_roundtrip_lossy :
    jsIncludes "Widget, Large" "," = true ∧
    DataExport.exportDataToCSV [csvSampleRow] = some "name\n\"Widget, Large\"" ∧
    DataExport.parseCSVFile ((DataExport.exportDataToCSV [csvSampleRow]).getD "")
        = [[("name", "Widget")]] ∧
    [[("name", "Widget")]] ≠ [[("name", "Widget, Large")]] := by decide

/-- C6: with both a category and the low stock level set in the
filter, getFilteredProducts of the attached_assets and supabase
variants returns exactly the products satisfying both predicates at
once — membership in the result is equivalent to the conjunction, so
the result is the intersection, never the union, of the two predicate
sets. -/
theorem c6_filter_conjunction (products : List Product) (movements : List StockMovement)
    (cats : List Category) (sups : List Supplier) (stats : StockStats)
    (statsSb : CtxSupabase.StockStats) (fLoading : Bool) (X : String) (hX : X ≠ "")
    (p : Product) :
    (p ∈ CtxAttached.getFilteredProducts
        { products := products, movements := movements, categories := cats,
          suppliers := sups, stats := stats,
          filter := { category := some X, stockLevel := some .low }, loading := fLoading }
      ↔ p ∈ products ∧ p.category_id = X ∧ CtxAttached.getStockLevel p = .low) ∧
    (p ∈ CtxSupabase.getFilteredProducts
        { products := products, movements := movements, categories := cats,
          suppliers := sups, stats := statsSb,
          filter := { category := some X, stockLevel := some .low }, loading := fLoading }
      ↔ p ∈ products ∧ p.category_id = X ∧ CtxSupabase.getStockLevel p = .low) := by
  constructor
  · simp only [CtxAttached.getFilteredProducts, hX, ne_eq, not_false_eq_true, if_true,
      List.mem_filter, decide_eq_true_eq, and_assoc]
  · simp only [CtxSupabase.getFilteredProducts, hX, ne_eq, not_false_eq_true, if_true,
      List.mem_filter, decide_eq_true_eq, and_assoc]

/-- C6 (witness): the theorem applied to a three-product list with
category c1, at the low-stock product of category c1. -/
theorem c6_filter_conjunction_witness :
    "c1" ≠ "" ∧
    ((catLowProduct ∈ CtxAttached.getFilteredProducts
        { products := [catLowProduct, catHighProduct, otherCatLowProduct], movements := [],
          categories := [], suppliers := [], stats := {},
          filter := { category := some "c1", stockLevel := some .low }, loading := false }
      ↔ catLowProduct ∈ [catLowProduct, catHighProduct, otherCatLowProduct] ∧
        catLowProduct.category_id = "c1" ∧ CtxAttached.getStockLevel catLowProduct = .low) ∧
     (catLowProduct ∈ CtxSupabase.getFilteredProducts
        { products := [catLowProduct, catHighProduct, otherCatLowProduct], movements := [],
          categories := [], suppliers := [], stats := {},
          filter := { category := some "c1", stockLevel := some .low }, loading := false }
      ↔ catLowProduct ∈ [catLowProduct, catHighProduct, otherCatLowProduct] ∧
        catLowProduct.category_id = "c1" ∧ CtxSupabase.getStockLevel catLowProduct = .low)) :=
  ⟨by decide,
   c6_filter_conjunction [catLowProduct, catHighProduct, otherCatLowProduct] [] [] []
     {} {} false "c1" (by decide) catLowProduct⟩

/-- C7: dispatching SET_PRODUCTS twice with the same payload yields
the same state as dispatching it once, for the attached_assets reducer
and for the first part_003 reducer alike. -/
theorem c7_set_products_idempotent (parseDate : String → Int) (sevenDaysAgo : Int)
    (s : StockState) (P : List Product) :
    CtxAttached.stockReducer parseDate sevenDaysAgo
        (CtxAttached.stockReducer parseDate sevenDaysAgo s (.SET_PRODUCTS P)) (.SET_PRODUCTS P)
      = CtxAttached.stockReducer parseDate sevenDaysAgo s (.SET_PRODUCTS P) ∧
    CtxLocal.stockReducer parseDate sevenDaysAgo
        (CtxLocal.stockReducer parseDate sevenDaysAgo s (.SET_PRODUCTS P)) (.SET_PRODUCTS P)
      = CtxLocal.stockReducer parseDate sevenDaysAgo s (.SET_PRODUCTS P) :=
  ⟨rfl, rfl⟩

/-- C8: the reducers are total and act as the identity outside the
thirteen handled action types: any action whose runtime type tag is
not in the handled list returns the state unchanged through the
default branch, in the attached_assets reducer and in the first
part_003 reducer. -/
theorem c8_unhandled_action_identity (parseDate : String → Int) (sevenDaysAgo : Int)
    (s : StockState) (a : StockAction) (h : a.tag ∉ handledTags) :
    CtxAttached.stockReducer parseDate sevenDaysAgo s a = s ∧
    CtxLocal.stockReducer parseDate sevenDaysAgo s a = s := by
  cases a <;> first
    | exact ⟨rfl, rfl⟩
    | exact absurd (by simp [StockAction.tag, handledTags]) h

/-- C8 (witness): the theorem applied to the initial state and an
action tagged RESET_STATE, which is not a handled tag. -/
theorem c8_unhandled_action_identity_witness :
    StockAction.tag (.unknown "RESET_STATE") ∉ handledTags ∧
    (CtxAttached.stockReducer (fun _ => 0) 0 CtxAttached.initialState (.unknown "RESET_STATE")
        = CtxAttached.initialState ∧
     CtxLocal.stockReducer (fun _ => 0) 0 CtxAttached.initialState (.unknown "RESET_STATE")
        = CtxAttached.initialState) :=
  ⟨by decide,
   c8_unhandled_action_identity (fun _ => 0) 0 CtxAttached.initialState
     (.unknown "RESET_STATE") (by decide)⟩

/-- C9: every falsy cell value — the number 0, false, null, undefined
and the empty string — is exported as the two-character cell of an
escaped empty string, because each cell is JSON.stringify of the value
or-defaulted with the empty string; consequently CSV export conflates
a zero field with an empty field even without commas, quotes or
newlines: two distinct records export to identical CSV text. -/
theorem c9_falsy_cells_collapse :
    (∀ v : DataExport.JsValue, DataExport.truthy v = false →
        DataExport.csvCell v = "\"\"") ∧
    DataExport.exportDataToCSV [[("qty", DataExport.JsValue.num 0)]]
        = DataExport.exportDataToCSV [[("qty", DataExport.JsValue.str "")]] ∧
    ([[("qty", DataExport.JsValue.num 0)]] : List DataExport.Row)
        ≠ [[("qty", DataExport.JsValue.str "")]] := by
  refine ⟨?_, by decide, by decide⟩
  intro v h
  simp only [DataExport.csvCell, h, Bool.false_eq_true, if_false]
  decide

/-- C9 (witness): the theorem applied to the falsy value 0. -/
theorem c9_falsy_cells_collapse_witness :
    DataExport.truthy (DataExport.JsValue.num 0) = false ∧
    DataExport.csvCell (DataExport.JsValue.num 0) = "\"\"" :=
  ⟨by decide, c9_falsy_cells_collapse.1 (DataExport.JsValue.num 0) (by decide)⟩

/-- C10: every record parseCSVFile returns has at least one field
holding a non-empty string, because the final filter drops any object
all of whose values are empty; a trailing blank line therefore yields
no record, and quote stripping happens on headers and values before
the filter, as the concrete parses show. -/
theorem c10_parsed_records_nonempty :
    (∀ (csv : String) (r : List (String × String)),
        r ∈ DataExport.parseCSVFile csv → ∃ kv ∈ r, kv.2 ≠ "") ∧
    DataExport.parseCSVFile "name\nWidget\n" = [[("name", "Widget")]] ∧
    DataExport.parseCSVFile "\"name\"\n\"Widget\"" = [[("name", "Widget")]] := by
  refine ⟨?_, by decide, by decide⟩
  intro csv r hr
  simp only [DataExport.parseCSVFile, List.mem_filter] at hr
  have h2 := hr.2
  simpa [List.any_eq_true] using h2

/-- C10 (witness): the theorem applied to a one-record CSV text. -/
theorem c10_parsed_records_nonempty_witness :
    [("name", "Widget")] ∈ DataExport.parseCSVFile "name\nWidget" ∧
    (∃ kv ∈ [("name", "Widget")], kv.2 ≠ "") :=
  ⟨by decide,
   c10_parsed_records_nonempty.1 "name\nWidget" [("name", "Widget")] (by decide)⟩
